import Mathlib

set_option autoImplicit false

namespace SerpClustering

/-!
Shallow embedding of `SERP-base-clustering-app-with-API.py`.

The program's data flows through pandas DataFrames; we embed the tables as
lists of typed rows.  Missing cells (pandas `NaN`) are `Option.none`.
Streamlit calls (`st.error`, `st.warning`) are modelled as error values and
accumulated warning strings; an uncaught Python exception is an
`Except.error` value naming the exception.
-/

/-- A row of the uploaded keyword table, restricted to the two columns the
program reads: the value in the chosen keyword column (pandas `astype(str)`
makes it a string) and the value in the `Volume` column (`none` = NaN). -/
structure RawRow where
  queryCell : String
  volumeCell : Option Int
  deriving DecidableEq, Repr

/-- The uploaded table: its column names plus its rows. -/
structure RawTable where
  columns : List String
  rows : List RawRow
  deriving DecidableEq, Repr

/-- Output row of `clean_excel_data`: cleaned query and integer volume. -/
structure KeywordRecord where
  query : String
  volume : Int
  deriving DecidableEq, Repr

/-- How `clean_excel_data` can fail:
`columnNotFound` = the guarded `st.error` + `return None` path when the
selected keyword column is missing; `keyErrorVolume` = the uncaught pandas
`KeyError` raised by `terms_df[[keyword_column, 'Volume']]` when the
`Volume` column is missing. -/
inductive LoadError where
  | columnNotFound
  | keyErrorVolume
  deriving DecidableEq, Repr

/-- Characters kept by the regex replacement `[^a-zA-Z0-9 ]` → `''`:
ASCII letters, ASCII digits and the space. -/
def allowedChar (c : Char) : Bool :=
  c.isAlpha || c.isDigit || c == ' '

/-- `str.replace('[^a-zA-Z0-9 ]', '', regex=True)` on one cell. -/
def cleanQuery (s : String) : String :=
  String.mk (s.toList.filter allowedChar)

/-- Embedding of `clean_excel_data(uploaded_file, keyword_column)` (source
lines 18–31), after parsing: check the keyword column exists (else
`st.error` / `None`), select `[keyword_column, 'Volume']` (an uncaught
`KeyError` when `Volume` is absent), rename, `fillna(0).astype(int)` on
`Volume`, strip non-alphanumeric-non-space characters from `query`, and
keep only rows whose cleaned query is longer than 3 characters. -/
def clean_excel_data (t : RawTable) (keyword_column : String) :
    Except LoadError (List KeywordRecord) :=
  if keyword_column ∉ t.columns then
    .error .columnNotFound
  else if "Volume" ∉ t.columns then
    .error .keyErrorVolume
  else
    .ok ((t.rows.map fun r =>
        ({ query := cleanQuery r.queryCell, volume := r.volumeCell.getD 0 } : KeywordRecord)).filter
      fun k => 3 < k.query.length)

/-- The table that `clean_excel_data` returns, viewed again as an uploaded
table (columns `query`, `Volume`; no NaN cells).  Used to state
idempotence of normalization. -/
def toRawTable (recs : List KeywordRecord) : RawTable :=
  { columns := ["query", "Volume"]
    rows := recs.map fun k => { queryCell := k.query, volumeCell := some k.volume } }

/-- The per-record property C1 claims of every output record: query longer
than 3, query made only of letters/digits/spaces, non-negative volume. -/
def keywordRecordOK (k : KeywordRecord) : Bool :=
  decide (3 < k.query.length) && k.query.toList.all allowedChar && decide (0 ≤ k.volume)

/-- C1's claim, as stated, evaluated on one input: every record of a
successful `clean_excel_data` output satisfies `keywordRecordOK`. -/
def c1Holds (t : RawTable) (keyword_column : String) : Bool :=
  match clean_excel_data t keyword_column with
  | .ok recs => recs.all keywordRecordOK
  | .error _ => true

/-- The `search_parameters` object of a result entry; `q` is `none` when
that key is absent. -/
structure SearchParams where
  q : Option String
  deriving DecidableEq, Repr

/-- One element of an `organic_results` array; `link` is `none` when the
item has no `link` key. -/
structure OrganicResult where
  link : Option String
  deriving DecidableEq, Repr

/-- The `result` object of an entry; either nested key may be absent. -/
structure ResultField where
  search_parameters : Option SearchParams
  organic_results : Option (List OrganicResult)
  deriving DecidableEq, Repr

/-- One entry of a fetched result document (`each` in the source loop);
the `result` key itself may be absent. -/
structure Entry where
  result : Option ResultField
  deriving DecidableEq, Repr

/-- The HTTP response for one result location: status code plus the parsed
JSON body (a list of entries), which the code reads only on status 200. -/
structure FetchResponse where
  status : Nat
  body : List Entry
  deriving DecidableEq, Repr

/-- Embedding of `get_search_results(json_url)` (source lines 60–66), with
the HTTP response for the location as a parameter: on status 200 return
the parsed JSON; otherwise call `st.error` and fall off the end of the
function, returning Python `None` (modelled as `none`). -/
def get_search_results (resp : FetchResponse) : Option (List Entry) :=
  if resp.status == 200 then some resp.body else none

/-- Uncaught Python exceptions that can escape `clean_search_results`:
iterating over the `None` returned by `get_search_results` after a
non-200 fetch raises `TypeError`; the unguarded nested lookup
`each[..result..][..search_parameters..][..q..]` raises `KeyError` when
any of the three keys is absent. -/
inductive CollectError where
  | typeErrorNoneNotIterable
  | keyErrorQueryPath
  deriving DecidableEq, Repr

/-- The unguarded nested lookup of the query text (source line 77);
`none` models the `KeyError` raised when any key on the path is absent. -/
def extractQuery (e : Entry) : Option String :=
  (e.result.bind fun r => r.search_parameters).bind fun sp => sp.q

/-- The link-list comprehension of source line 81; `none` models the
`KeyError` that the surrounding `try` catches: `organic_results` absent,
or some item lacking a `link` key. -/
def extractLinks (e : Entry) : Option (List String) :=
  (e.result.bind fun r => r.organic_results).bind fun l => l.mapM OrganicResult.link

/-- The query text of an entry whose query path is present. -/
def theQuery (e : Entry) : String :=
  (extractQuery e).getD ""

/-- The links of an entry, `[]` when extraction raised `KeyError`. -/
def theLinks (e : Entry) : List String :=
  (extractLinks e).getD []

/-- The `st.warning` message of source line 85 for a given query. -/
def warnMsg (q : String) : String :=
  "KeyError: organic_results not found in result for query: " ++ q

/-- The accumulator state of `clean_search_results`: the two parallel
lists it builds plus the `st.warning` messages emitted so far. -/
structure CollectState where
  query_list : List String
  links_list : List (List String)
  warnings : List String
  deriving DecidableEq, Repr

/-- The body of the inner `for each in response_json` loop (lines 76–85):
extract the query (uncaught `KeyError` when its path is absent) and
append it; then try to extract the links, appending `[]` plus a warning
when a `KeyError` is caught. -/
def processEntry (acc : CollectState) (e : Entry) : Except CollectError CollectState :=
  match extractQuery e with
  | none => .error .keyErrorQueryPath
  | some q =>
      match extractLinks e with
      | some links =>
          .ok { acc with query_list := acc.query_list ++ [q], links_list := acc.links_list ++ [links] }
      | none =>
          .ok { query_list := acc.query_list ++ [q], links_list := acc.links_list ++ [[]],
                warnings := acc.warnings ++ [warnMsg q] }

/-- The inner loop over a fetched document, threading the accumulator. -/
def processEntries (acc : CollectState) : List Entry → Except CollectError CollectState
  | [] => .ok acc
  | e :: es =>
      match processEntry acc e with
      | .error err => .error err
      | .ok acc2 => processEntries acc2 es

/-- The outer loop over `result_set` (lines 73–85): fetch each location
and run the inner loop; a non-200 fetch leaves `response_json = None` and
the `for` statement raises `TypeError`. -/
def processResponses (acc : CollectState) : List FetchResponse → Except CollectError CollectState
  | [] => .ok acc
  | r :: rs =>
      match get_search_results r with
      | none => .error .typeErrorNoneNotIterable
      | some entries =>
          match processEntries acc entries with
          | .error err => .error err
          | .ok acc2 => processResponses acc2 rs

/-- An output row of the collector, one row of `serp_df`. -/
structure ResultRecord where
  query : String
  links : List String
  deriving DecidableEq, Repr

/-- Embedding of `clean_search_results(result_set)` (source lines 69–90):
run the two nested loops from empty accumulators, then zip the two lists
into the rows of the `serp_df` DataFrame, also returning the warnings. -/
def clean_search_results (result_set : List FetchResponse) :
    Except CollectError (List ResultRecord × List String) :=
  match processResponses { query_list := [], links_list := [], warnings := [] } result_set with
  | .error err => .error err
  | .ok acc =>
      .ok ((acc.query_list.zip acc.links_list).map fun p => { query := p.1, links := p.2 },
        acc.warnings)

/-- The warnings produced by a list of entries, in encounter order. -/
def collectWarnings (es : List Entry) : List String :=
  (es.filter fun e => (extractLinks e).isNone).map fun e => warnMsg (theQuery e)

/-- A row of the merged table: keyword, volume and the `links` cell, which
is NaN (`none`) for keyword rows without a matching result row. -/
structure UnifiedRecord where
  query : String
  volume : Int
  links : Option (List String)
  deriving DecidableEq, Repr

/-- Embedding of `pd.merge(cleaned_df, cleaned_results, how='left',
on='query')` (source line 166): for each keyword row, in order, one
output row per matching result row (pandas fans out duplicate keys); a
keyword row with no match yields a single row whose `links` cell is NaN
(`none`, not an empty list). -/
def mergeLeft (K : List KeywordRecord) (R : List ResultRecord) : List UnifiedRecord :=
  K.flatMap fun k =>
    match R.filter (fun r => r.query == k.query) with
    | [] => [{ query := k.query, volume := k.volume, links := none }]
    | ms => ms.map fun r => { query := k.query, volume := k.volume, links := some r.links }

/-- The single merged row for keyword `k` when each result query occurs
at most once: `links` is the links list of the matching result row, or
NaN (`none`) when no result row matches. -/
def mergeRow (R : List ResultRecord) (k : KeywordRecord) : UnifiedRecord :=
  match R.filter fun r => r.query == k.query with
  | [] => { query := k.query, volume := k.volume, links := none }
  | r :: _ => { query := k.query, volume := k.volume, links := some r.links }

/-- Example keyword table rows after normalization (distinct queries). -/
def exampleKeywords : List KeywordRecord :=
  [{ query := "abcd", volume := 1 }, { query := "wxyz", volume := 2 }]

/-- Example collected result rows (distinct queries). -/
def exampleResults : List ResultRecord :=
  [{ query := "abcd", links := ["u"] }]

/-- An HTTP response from the clustering service. -/
structure HttpResponse where
  status : Nat
  text : String
  deriving DecidableEq, Repr

/-- What `get_clusters_from_api` reports on failure.  The code runs
`st.error("Error:", response.status_code)`: only the status code is
included, never the response body, so `body` is always `none`. -/
structure ApiError where
  status : Nat
  body : Option String
  deriving DecidableEq, Repr

set_option linter.unusedVariables false in
/-- Embedding of `get_clusters_from_api(serp_df, common_num)` (source
lines 93–111), with the HTTP response of the POST as a parameter: on
status 200 parse `response.text` into the clusters table (kept abstract
as the text itself); on any other status report an error carrying only
the status code and return `None` — no cluster assignments. -/
def get_clusters_from_api (serp_df : List UnifiedRecord) (resp : HttpResponse) :
    Except ApiError String :=
  if resp.status == 200 then .ok resp.text
  else .error { status := resp.status, body := none }

/-- Example entry: query path present, `organic_results` absent (a
knowledge-panel-only response). -/
def entryNoLinks : Entry :=
  { result := some { search_parameters := some { q := some "knowledge panel" },
                     organic_results := none } }

/-- Example entry: query path and organic links both present. -/
def entryWithLinks : Entry :=
  { result := some { search_parameters := some { q := some "other query" },
                     organic_results := some [{ link := some "u" }] } }

/-- Example entry: `search_parameters` absent, so the query lookup raises
`KeyError`. -/
def entryNoQueryPath : Entry :=
  { result := some { search_parameters := none,
                     organic_results := some [{ link := some "u" }] } }

/-- Example document fetch: status 200, two well-formed entries. -/
def docOK : FetchResponse :=
  { status := 200, body := [entryNoLinks, entryWithLinks] }

/-- Example document fetch: status 200, one entry missing its query path. -/
def docNoQ : FetchResponse :=
  { status := 200, body := [entryNoQueryPath] }

/-- Example document fetch that fails with HTTP 404. -/
def doc404 : FetchResponse :=
  { status := 404, body := [] }

/-- Remote batch status as observed by the orchestrator. -/
inductive BatchStatus where
  | created
  | queued
  | running
  | completed
  | failed
  deriving DecidableEq, Repr

/-- Fatal errors of the orchestration tail. -/
inductive OrchError where
  | batchTimeout
  | batchFailed
  | collectException (e : CollectError)
  | clusterError (e : ApiError)
  deriving DecidableEq, Repr

/-- Modelled from the spec: `get_result_set`, called by `main` at source
line 160, is not defined in this source file, so its poll loop is
modelled from spec §5: the orchestrator repeatedly checks the batch
status with a bounded wait — at most `fuel` checks, with a delay between
checks — and stops at the first `completed` or `failed` status; running
out of budget is the fatal `BatchTimeoutError`, never an infinite wait.
`status i` is the remote status observed by the i-th check. -/
def pollBatchStatus (status : Nat → BatchStatus) : Nat → Nat → Except OrchError BatchStatus
  | _, 0 => .error .batchTimeout
  | i, fuel + 1 =>
      match status i with
      | .completed => .ok .completed
      | .failed => .ok .failed
      | _ => pollBatchStatus status (i + 1) fuel

/-- Modelled from the spec: the orchestration tail of `main` from
`start_batch` onward (source lines 156–169), with the poll loop of
`get_result_set` modelled from spec §5: poll until terminal, then fetch
the result documents, collect, left-merge with the keyword table and
call the clustering service.  The second component counts calls made to
the clustering service; a timeout or a `failed` batch aborts the run
before any such call. -/
def orchestrateAfterStart (status : Nat → BatchStatus) (budget : Nat)
    (K : List KeywordRecord) (result_set : List FetchResponse)
    (clusterResp : HttpResponse) : Except OrchError String × Nat :=
  match pollBatchStatus status 0 budget with
  | .error e => (.error e, 0)
  | .ok .failed => (.error .batchFailed, 0)
  | .ok _ =>
      match clean_search_results result_set with
      | .error ce => (.error (.collectException ce), 0)
      | .ok (recs, _) =>
          match get_clusters_from_api (mergeLeft K recs) clusterResp with
          | .error ae => (.error (.clusterError ae), 1)
          | .ok clusters => (.ok clusters, 1)

theorem cleanQuery_allowed (s : String) : (cleanQuery s).toList.all allowedChar = true := by
  simp only [cleanQuery, List.all_eq_true]
  intro c hc
  exact (List.mem_filter.mp hc).2

theorem cleanQuery_idem (s : String) : cleanQuery (cleanQuery s) = cleanQuery s := by
  simp only [cleanQuery]
  congr 1
  show List.filter allowedChar (List.filter allowedChar s.toList) = List.filter allowedChar s.toList
  rw [List.filter_eq_self]
  intro c hc
  exact (List.mem_filter.mp hc).2

/-- Unfolding of a successful run of `clean_excel_data`. -/
theorem clean_excel_data_ok (t : RawTable) (kc : String) (hk : kc ∈ t.columns)
    (hv : "Volume" ∈ t.columns) :
    clean_excel_data t kc =
      .ok ((t.rows.map fun r =>
          ({ query := cleanQuery r.queryCell, volume := r.volumeCell.getD 0 } : KeywordRecord)).filter
        fun k => 3 < k.query.length) := by
  simp [clean_excel_data, hk, hv]

/-- Membership in the output of `clean_excel_data` comes from an input row. -/
theorem mem_clean_excel_data {t : RawTable} {kc : String} {recs : List KeywordRecord}
    {k : KeywordRecord} (h : clean_excel_data t kc = .ok recs) (hm : k ∈ recs) :
    3 < k.query.length ∧ ∃ r ∈ t.rows, k = { query := cleanQuery r.queryCell, volume := r.volumeCell.getD 0 } := by
  unfold clean_excel_data at h
  split at h
  · cases h
  · split at h
    · cases h
    · cases h
      have h1 := List.mem_filter.mp hm
      have h2 := List.mem_map.mp h1.1
      refine ⟨by simpa using h1.2, ?_⟩
      obtain ⟨r, hr, hrk⟩ := h2
      exact ⟨r, hr, hrk.symm⟩

/-- C1 as stated is refuted at the table with one row
`{queryCell := "abcd", volumeCell := -1}`: the output record has a
negative volume (`fillna(0).astype(int)` never rejects negatives), so
the output fails the claimed `keywordRecordOK` check. -/
theorem c1_counterexample :
    c1Holds { columns := ["kw", "Volume"],
              rows := [{ queryCell := "abcd", volumeCell := some (-1) }] } "kw" = false := by
  rfl

/-- C1 (amended): for every input table all of whose Volume cells are
non-negative (a missing cell counts as 0), every record in a successful
output of `clean_excel_data` has a query of length strictly greater than 3
made only of letters, digits and spaces, and a non-negative integer
volume.  (The code never enforces non-negativity of the volume itself.) -/
theorem c1_normalized_records (t : RawTable) (kc : String) (recs : List KeywordRecord)
    (h : clean_excel_data t kc = .ok recs)
    (hvol : ∀ r ∈ t.rows, 0 ≤ r.volumeCell.getD 0) :
    ∀ k ∈ recs, 3 < k.query.length ∧ k.query.toList.all allowedChar = true ∧ 0 ≤ k.volume := by
  intro k hk
  obtain ⟨hlen, r, hr, hkr⟩ := mem_clean_excel_data h hk
  refine ⟨hlen, ?_, ?_⟩
  · rw [hkr]
    exact cleanQuery_allowed r.queryCell
  · rw [hkr]
    exact hvol r hr

/-- Witness for `c1_normalized_records` at a concrete table and record. -/
theorem c1_normalized_records_witness :
    3 < ({ query := "ab cd", volume := 7 } : KeywordRecord).query.length ∧
    ({ query := "ab cd", volume := 7 } : KeywordRecord).query.toList.all allowedChar = true ∧
    0 ≤ ({ query := "ab cd", volume := 7 } : KeywordRecord).volume :=
  c1_normalized_records
    { columns := ["kw", "Volume"], rows := [{ queryCell := "ab cd!", volumeCell := some 7 }] }
    "kw" [{ query := "ab cd", volume := 7 }] rfl (by decide)
    { query := "ab cd", volume := 7 } (by decide)

/-- C5: `clean_excel_data` is idempotent: re-normalizing its own output
(viewed as a table with columns `query`, `Volume`, keyword column `query`)
returns exactly that output, in content and order. -/
theorem c5_normalize_idempotent (t : RawTable) (kc : String) (recs : List KeywordRecord)
    (h : clean_excel_data t kc = .ok recs) :
    clean_excel_data (toRawTable recs) "query" = .ok recs := by
  have hmem : ∀ k ∈ recs, 3 < k.query.length ∧ cleanQuery k.query = k.query := by
    intro k hk
    obtain ⟨hlen, r, hr, hkr⟩ := mem_clean_excel_data h hk
    refine ⟨hlen, ?_⟩
    rw [hkr]
    exact cleanQuery_idem r.queryCell
  rw [clean_excel_data_ok (toRawTable recs) "query" (by simp [toRawTable])
    (by simp [toRawTable])]
  have hrows : (toRawTable recs).rows = recs.map fun k =>
      ({ queryCell := k.query, volumeCell := some k.volume } : RawRow) := rfl
  rw [hrows, List.map_map]
  have hmap : (recs.map ((fun r =>
      ({ query := cleanQuery r.queryCell, volume := r.volumeCell.getD 0 } : KeywordRecord)) ∘
        fun k => ({ queryCell := k.query, volumeCell := some k.volume } : RawRow))) = recs := by
    have hid : (recs.map ((fun r =>
        ({ query := cleanQuery r.queryCell, volume := r.volumeCell.getD 0 } : KeywordRecord)) ∘
          fun k => ({ queryCell := k.query, volumeCell := some k.volume } : RawRow))) =
        recs.map id := by
      apply List.map_congr_left
      intro k hk
      simp only [Function.comp_apply, id_eq, Option.getD_some]
      have h2 := (hmem k hk).2
      cases k with
      | mk q v =>
        simp only [KeywordRecord.mk.injEq]
        exact ⟨h2, trivial⟩
    rw [hid, List.map_id]
  rw [hmap]
  congr 1
  rw [List.filter_eq_self]
  intro k hk
  simpa using (hmem k hk).1

/-- Witness for `c5_normalize_idempotent` at a concrete table. -/
theorem c5_normalize_idempotent_witness :
    clean_excel_data (toRawTable [{ query := "best shoes", volume := 10 }]) "query" =
      .ok [{ query := "best shoes", volume := 10 }] :=
  c5_normalize_idempotent
    { columns := ["kw", "Volume"], rows := [{ queryCell := "best shoes?", volumeCell := some 10 }] }
    "kw" [{ query := "best shoes", volume := 10 }] rfl

/-- C6 as stated is refuted at the table with columns `["kw"]` and keyword
column `"kw"`: `Volume` is absent, and `clean_excel_data` raises an
uncaught pandas `KeyError` (modelled `keyErrorVolume`), not the graceful
`ColumnNotFound` error path (`st.error` + `return None`), which is
reserved for a missing keyword column. -/
theorem c6_counterexample :
    clean_excel_data { columns := ["kw"], rows := [{ queryCell := "abcd", volumeCell := some 5 }] }
        "kw" = .error .keyErrorVolume ∧
    clean_excel_data { columns := ["kw"], rows := [{ queryCell := "abcd", volumeCell := some 5 }] }
        "kw" ≠ .error .columnNotFound := by
  refine ⟨rfl, fun h => ?_⟩
  have h2 : (Except.error .keyErrorVolume : Except LoadError (List KeywordRecord)) =
      .error .columnNotFound := h
  exact absurd (Except.error.inj h2) (by decide)

/-- C6 (amended): `clean_excel_data` fails with `ColumnNotFound` whenever
the chosen keyword column is absent; but when the keyword column is
present and the `Volume` column is absent, it fails with an uncaught
`KeyError` exception, not with `ColumnNotFound`. -/
theorem c6_column_errors (t : RawTable) (kc : String) :
    (kc ∉ t.columns → clean_excel_data t kc = .error .columnNotFound) ∧
    (kc ∈ t.columns → "Volume" ∉ t.columns →
      clean_excel_data t kc = .error .keyErrorVolume) := by
  constructor
  · intro h
    simp [clean_excel_data, h]
  · intro h1 h2
    simp [clean_excel_data, h1, h2]

/-- Witness for `c6_column_errors` at concrete tables. -/
theorem c6_column_errors_witness :
    clean_excel_data { columns := ["Volume"], rows := [] } "kw" = .error .columnNotFound ∧
    clean_excel_data { columns := ["kw"], rows := [] } "kw" = .error .keyErrorVolume :=
  ⟨(c6_column_errors { columns := ["Volume"], rows := [] } "kw").1 (by decide),
   (c6_column_errors { columns := ["kw"], rows := [] } "kw").2 (by decide) (by decide)⟩

theorem processEntry_ok (acc : CollectState) (e : Entry) (q : String)
    (hq : extractQuery e = some q) :
    processEntry acc e = .ok
      { query_list := acc.query_list ++ [q],
        links_list := acc.links_list ++ [theLinks e],
        warnings := acc.warnings ++
          if (extractLinks e).isNone then [warnMsg q] else [] } := by
  unfold processEntry
  rw [hq]
  cases hl : extractLinks e with
  | some links => simp [theLinks, hl]
  | none => simp [theLinks, hl]

theorem processEntries_ok (es : List Entry) (acc : CollectState)
    (h : ∀ e ∈ es, (extractQuery e).isSome) :
    processEntries acc es = .ok
      { query_list := acc.query_list ++ es.map theQuery,
        links_list := acc.links_list ++ es.map theLinks,
        warnings := acc.warnings ++ collectWarnings es } := by
  induction es generalizing acc with
  | nil => simp [processEntries, collectWarnings]
  | cons e es ih =>
      obtain ⟨q, hq⟩ := Option.isSome_iff_exists.mp (h e (List.mem_cons_self e es))
      have hthq : theQuery e = q := by simp [theQuery, hq]
      simp only [processEntries, processEntry_ok acc e q hq]
      rw [ih _ (fun x hx => h x (List.mem_cons_of_mem e hx))]
      cases hl : extractLinks e with
      | some links =>
          simp [collectWarnings, List.filter_cons, hl, hthq, List.append_assoc]
      | none =>
          simp [collectWarnings, List.filter_cons, hl, hthq, List.append_assoc]

theorem processEntries_error (es : List Entry) (acc : CollectState)
    (h : ∃ e ∈ es, extractQuery e = none) :
    processEntries acc es = .error .keyErrorQueryPath := by
  induction es generalizing acc with
  | nil => simp at h
  | cons e es ih =>
      cases hq : extractQuery e with
      | none =>
          unfold processEntries processEntry
          rw [hq]
      | some q =>
          obtain ⟨x, hx, hxq⟩ := h
          rcases List.mem_cons.mp hx with rfl | hx2
          · rw [hq] at hxq
            cases hxq
          · unfold processEntries
            rw [processEntry_ok acc e q hq]
            exact ih _ ⟨x, hx2, hxq⟩

theorem processResponses_ok (rs : List FetchResponse) (acc : CollectState)
    (h200 : ∀ r ∈ rs, r.status = 200)
    (hq : ∀ r ∈ rs, ∀ e ∈ r.body, (extractQuery e).isSome) :
    processResponses acc rs = .ok
      { query_list := acc.query_list ++ (rs.flatMap FetchResponse.body).map theQuery,
        links_list := acc.links_list ++ (rs.flatMap FetchResponse.body).map theLinks,
        warnings := acc.warnings ++ collectWarnings (rs.flatMap FetchResponse.body) } := by
  induction rs generalizing acc with
  | nil => simp [processResponses, collectWarnings]
  | cons r rs ih =>
      have hs : get_search_results r = some r.body := by
        simp [get_search_results, h200 r (List.mem_cons_self r rs)]
      simp only [processResponses, hs,
        processEntries_ok r.body acc (hq r (List.mem_cons_self r rs))]
      rw [ih _ (fun x hx => h200 x (List.mem_cons_of_mem r hx))
        (fun x hx => hq x (List.mem_cons_of_mem r hx))]
      simp [collectWarnings, List.filter_append, List.append_assoc]

theorem processResponses_error (rs : List FetchResponse) (acc : CollectState)
    (h200 : ∀ r ∈ rs, r.status = 200)
    (h : ∃ r ∈ rs, ∃ e ∈ r.body, extractQuery e = none) :
    processResponses acc rs = .error .keyErrorQueryPath := by
  induction rs generalizing acc with
  | nil => simp at h
  | cons r rs ih =>
      have hs : get_search_results r = some r.body := by
        simp [get_search_results, h200 r (List.mem_cons_self r rs)]
      obtain ⟨x, hx, e, he, hee⟩ := h
      rcases List.mem_cons.mp hx with rfl | hx2
      · simp only [processResponses, hs, processEntries_error x.body acc ⟨e, he, hee⟩]
      · by_cases hall : ∀ y ∈ r.body, (extractQuery y).isSome
        · simp only [processResponses, hs, processEntries_ok r.body acc hall]
          exact ih _ (fun z hz => h200 z (List.mem_cons_of_mem r hz)) ⟨x, hx2, e, he, hee⟩
        · push_neg at hall
          obtain ⟨y, hy, hyn⟩ := hall
          simp only [processResponses, hs,
            processEntries_error r.body acc ⟨y, hy, Option.not_isSome_iff_eq_none.mp hyn⟩]

/-- C10: when every location is fetched with status 200 and every entry
carries its query path, `clean_search_results` keeps the query list and
the links list aligned — both are maps over the same entry sequence — and
`serp_df` has exactly one row per entry, in encounter order, pairing the
query of the entry with its (possibly empty) links list. -/
theorem c10_one_row_per_entry (rs : List FetchResponse)
    (h200 : ∀ r ∈ rs, r.status = 200)
    (hq : ∀ r ∈ rs, ∀ e ∈ r.body, (extractQuery e).isSome) :
    processResponses { query_list := [], links_list := [], warnings := [] } rs = .ok
      { query_list := (rs.flatMap FetchResponse.body).map theQuery,
        links_list := (rs.flatMap FetchResponse.body).map theLinks,
        warnings := collectWarnings (rs.flatMap FetchResponse.body) } ∧
    clean_search_results rs = .ok
      (((rs.flatMap FetchResponse.body).map fun e => { query := theQuery e, links := theLinks e }),
        collectWarnings (rs.flatMap FetchResponse.body)) := by
  have h1 := processResponses_ok rs { query_list := [], links_list := [], warnings := [] } h200 hq
  simp only [List.nil_append] at h1
  refine ⟨h1, ?_⟩
  simp only [clean_search_results, h1]
  rw [List.zip_map', List.map_map]
  rfl

/-- Witness for `c10_one_row_per_entry` at a concrete result set. -/
theorem c10_one_row_per_entry_witness :
    processResponses { query_list := [], links_list := [], warnings := [] } [docOK] = .ok
      { query_list := ([docOK].flatMap FetchResponse.body).map theQuery,
        links_list := ([docOK].flatMap FetchResponse.body).map theLinks,
        warnings := collectWarnings ([docOK].flatMap FetchResponse.body) } ∧
    clean_search_results [docOK] = .ok
      ((([docOK].flatMap FetchResponse.body).map fun e =>
          { query := theQuery e, links := theLinks e }),
        collectWarnings ([docOK].flatMap FetchResponse.body)) :=
  c10_one_row_per_entry [docOK] (by decide) (by decide)

/-- C3: for fetched documents of the documented shape (status 200, query
path present in every entry), an entry whose links path is absent still
yields the row `{query, links := []}`, a warning naming that query is
emitted, and the collection of all remaining entries and documents
completes: the output has one row for every entry of every document. -/
theorem c3_missing_links_tolerated (rs : List FetchResponse)
    (h200 : ∀ r ∈ rs, r.status = 200)
    (hq : ∀ r ∈ rs, ∀ e ∈ r.body, (extractQuery e).isSome)
    (r : FetchResponse) (hr : r ∈ rs) (e : Entry) (he : e ∈ r.body)
    (hnl : extractLinks e = none) :
    ∃ recs warns, clean_search_results rs = .ok (recs, warns) ∧
      ({ query := theQuery e, links := [] } : ResultRecord) ∈ recs ∧
      warnMsg (theQuery e) ∈ warns ∧
      recs.length = (rs.flatMap FetchResponse.body).length := by
  have h1 := processResponses_ok rs { query_list := [], links_list := [], warnings := [] } h200 hq
  simp only [List.nil_append] at h1
  have hmem : e ∈ rs.flatMap FetchResponse.body := List.mem_flatMap.mpr ⟨r, hr, he⟩
  refine ⟨(rs.flatMap FetchResponse.body).map fun x => { query := theQuery x, links := theLinks x },
    collectWarnings (rs.flatMap FetchResponse.body), ?_, ?_, ?_, by simp⟩
  · simp only [clean_search_results, h1]
    rw [List.zip_map', List.map_map]
    rfl
  · have : theLinks e = [] := by simp [theLinks, hnl]
    rw [← this]
    exact List.mem_map_of_mem _ hmem
  · have hfe : e ∈ (rs.flatMap FetchResponse.body).filter fun x => (extractLinks x).isNone := by
      rw [List.mem_filter]
      exact ⟨hmem, by simp [hnl]⟩
    exact List.mem_map_of_mem _ hfe

/-- Witness for `c3_missing_links_tolerated` at a concrete result set. -/
theorem c3_missing_links_tolerated_witness :
    ∃ recs warns, clean_search_results [docOK] = .ok (recs, warns) ∧
      ({ query := theQuery entryNoLinks, links := [] } : ResultRecord) ∈ recs ∧
      warnMsg (theQuery entryNoLinks) ∈ warns ∧
      recs.length = ([docOK].flatMap FetchResponse.body).length :=
  c3_missing_links_tolerated [docOK] (by decide) (by decide) docOK (by decide)
    entryNoLinks (by decide) rfl

/-- C9: with every fetch succeeding (status 200), `clean_search_results`
aborts with the uncaught `KeyError` of the unguarded lookup
`each[..result..][..search_parameters..][..q..]` exactly when some entry
of some document is missing one of those three keys; in every other case
(in particular when only `organic_results` or a `link` key is absent) the
collection completes. -/
theorem c9_unguarded_query_extraction (rs : List FetchResponse)
    (h200 : ∀ r ∈ rs, r.status = 200) :
    clean_search_results rs = .error .keyErrorQueryPath ↔
      ∃ r ∈ rs, ∃ e ∈ r.body, extractQuery e = none := by
  constructor
  · intro h
    by_contra hc
    push_neg at hc
    have hq : ∀ r ∈ rs, ∀ e ∈ r.body, (extractQuery e).isSome := by
      intro r hr e he
      exact Option.isSome_iff_ne_none.mpr (hc r hr e he)
    have h1 := processResponses_ok rs { query_list := [], links_list := [], warnings := [] } h200 hq
    simp only [clean_search_results, h1] at h
    cases h
  · intro hex
    have h1 := processResponses_error rs { query_list := [], links_list := [], warnings := [] }
      h200 hex
    simp only [clean_search_results, h1]

/-- Witness for `c9_unguarded_query_extraction`: a document whose single
entry has a `result` object without `search_parameters` crashes the
whole collection. -/
theorem c9_unguarded_query_extraction_witness :
    clean_search_results [docNoQ] = .error .keyErrorQueryPath :=
  (c9_unguarded_query_extraction [docNoQ] (by decide)).mpr
    ⟨docNoQ, by decide, entryNoQueryPath, by decide, rfl⟩

/-- C4 is a code bug: the spec (and the claim) say a non-200 fetch of one
result location is reported as a non-fatal warning, contributes zero
records, and collection continues; in the code `get_search_results`
returns `None` after `st.error`, and `clean_search_results` then iterates
over `None`, raising `TypeError` and aborting the whole collection — the
subsequent 200 location below is never collected. -/
theorem c4_non200_fetch_crashes_collection :
    get_search_results doc404 = none ∧
    clean_search_results [doc404, docOK] = .error .typeErrorNoneNotIterable :=
  ⟨rfl, rfl⟩

theorem filter_query_length_le_one (R : List ResultRecord) (q : String)
    (hR : (R.map ResultRecord.query).Nodup) :
    (R.filter fun r => r.query == q).length ≤ 1 := by
  induction R with
  | nil => simp
  | cons r R ih =>
      simp only [List.map_cons, List.nodup_cons] at hR
      by_cases h : r.query = q
      · have hnil : (R.filter fun x => x.query == q) = [] := by
          rw [List.filter_eq_nil_iff]
          intro x hx hbx
          apply hR.1
          have hxq : x.query = q := by simpa using hbx
          rw [← h, ← hxq] at *
          exact List.mem_map_of_mem _ hx
        simp [List.filter_cons, h, hnil]
      · have hb : (r.query == q) = false := by simpa using h
        simp only [List.filter_cons, hb, Bool.false_eq_true, if_false]
        exact ih hR.2

theorem mergeLeft_eq_map (K : List KeywordRecord) (R : List ResultRecord)
    (hR : (R.map ResultRecord.query).Nodup) :
    mergeLeft K R = K.map (mergeRow R) := by
  induction K with
  | nil => rfl
  | cons k K ih =>
      unfold mergeLeft
      rw [List.flatMap_cons]
      have htail : (K.flatMap fun k =>
          match R.filter fun r => r.query == k.query with
          | [] => [{ query := k.query, volume := k.volume, links := none }]
          | ms => ms.map fun r => { query := k.query, volume := k.volume, links := some r.links }) =
          K.map (mergeRow R) := by
        have h2 := ih
        unfold mergeLeft at h2
        exact h2
      rw [htail, List.map_cons]
      cases hf : R.filter fun r => r.query == k.query with
      | nil => simp [mergeRow, hf]
      | cons r ms =>
          have hle := filter_query_length_le_one R k.query hR
          rw [hf] at hle
          have hms : ms = [] := by
            simp only [List.length_cons] at hle
            exact List.eq_nil_of_length_eq_zero (by omega)
          subst hms
          simp [mergeRow, hf]

theorem mergeRow_query (R : List ResultRecord) (k : KeywordRecord) :
    (mergeRow R k).query = k.query := by
  unfold mergeRow
  split <;> rfl

theorem mergeRow_no_match (R : List ResultRecord) (k : KeywordRecord)
    (h : ∀ r ∈ R, r.query ≠ k.query) :
    mergeRow R k = { query := k.query, volume := k.volume, links := none } := by
  have hnil : (R.filter fun r => r.query == k.query) = [] := by
    rw [List.filter_eq_nil_iff]
    intro r hr
    simpa using h r hr
  unfold mergeRow
  simp only [hnil]

/-- C2 as stated is refuted at a keyword table with the two distinct
queries "abcd" and "wxyz" (so the deduplication policy on K holds) and a
collected result set with two rows for "abcd": the pandas left merge
fans the duplicate key out to two output rows, so the output has 3 rows
while |K| = 2, and the unmatched keyword "wxyz" gets a NaN links cell
(`none`), not the empty list. -/
theorem c2_counterexample :
    mergeLeft [{ query := "abcd", volume := 1 }, { query := "wxyz", volume := 2 }]
        [{ query := "abcd", links := ["u"] }, { query := "abcd", links := ["v"] }] =
      [{ query := "abcd", volume := 1, links := some ["u"] },
       { query := "abcd", volume := 1, links := some ["v"] },
       { query := "wxyz", volume := 2, links := none }] ∧
    (mergeLeft [{ query := "abcd", volume := 1 }, { query := "wxyz", volume := 2 }]
        [{ query := "abcd", links := ["u"] }, { query := "abcd", links := ["v"] }]).length ≠ 2 ∧
    (none : Option (List String)) ≠ some [] := by
  exact ⟨rfl, by decide, by decide⟩

/-- C2 (amended): when the keyword queries are distinct (the claimed
deduplication policy on K) and additionally the collected result queries
are distinct, the merge is a left outer join with exactly |K| rows: the
output query column equals the keyword query column in order, each
keyword query appears exactly once, every output query comes from K, and
a keyword row with no matching result row gets a NaN links cell (`none`),
not the empty list. -/
theorem c2_left_join (K : List KeywordRecord) (R : List ResultRecord)
    (hK : (K.map KeywordRecord.query).Nodup)
    (hR : (R.map ResultRecord.query).Nodup) :
    (mergeLeft K R).length = K.length ∧
    (mergeLeft K R).map UnifiedRecord.query = K.map KeywordRecord.query ∧
    (∀ k ∈ K, ((mergeLeft K R).map UnifiedRecord.query).count k.query = 1) ∧
    (∀ u ∈ mergeLeft K R, u.query ∈ K.map KeywordRecord.query) ∧
    (∀ u ∈ mergeLeft K R, (∀ r ∈ R, r.query ≠ u.query) → u.links = none) := by
  have hm := mergeLeft_eq_map K R hR
  have hmapq : (mergeLeft K R).map UnifiedRecord.query = K.map KeywordRecord.query := by
    rw [hm, List.map_map]
    apply List.map_congr_left
    intro k hk
    simp [mergeRow_query]
  refine ⟨by rw [hm, List.length_map], hmapq, ?_, ?_, ?_⟩
  · intro k hk
    rw [hmapq]
    exact List.count_eq_one_of_mem hK (List.mem_map_of_mem _ hk)
  · intro u hu
    rw [← hmapq]
    exact List.mem_map_of_mem _ hu
  · intro u hu hnom
    rw [hm] at hu
    obtain ⟨k, hk, rfl⟩ := List.mem_map.mp hu
    have hne : ∀ r ∈ R, r.query ≠ k.query := by
      intro r hr
      have h2 := hnom r hr
      rwa [mergeRow_query] at h2
    rw [mergeRow_no_match R k hne]

/-- Witness for `c2_left_join` at concrete keyword and result tables. -/
theorem c2_left_join_witness :
    (mergeLeft exampleKeywords exampleResults).length = exampleKeywords.length ∧
    (mergeLeft exampleKeywords exampleResults).map UnifiedRecord.query =
      exampleKeywords.map KeywordRecord.query ∧
    (∀ k ∈ exampleKeywords,
      ((mergeLeft exampleKeywords exampleResults).map UnifiedRecord.query).count k.query = 1) ∧
    (∀ u ∈ mergeLeft exampleKeywords exampleResults,
      u.query ∈ exampleKeywords.map KeywordRecord.query) ∧
    (∀ u ∈ mergeLeft exampleKeywords exampleResults,
      (∀ r ∈ exampleResults, r.query ≠ u.query) → u.links = none) :=
  c2_left_join exampleKeywords exampleResults (by decide) (by decide)

/-- C8 as stated is refuted at a 500 response with body "boom": the code
reports `st.error("Error:", response.status_code)` — the error carries
`body := none`, and `none` is not the verbatim body `some "boom"`. -/
theorem c8_counterexample :
    get_clusters_from_api [] { status := 500, text := "boom" } =
      .error { status := 500, body := none } ∧
    (none : Option String) ≠ some "boom" :=
  ⟨rfl, by decide⟩

/-- C8 (amended): on any response whose status is not 200 (in particular
any non-2xx status), `get_clusters_from_api` fails with an `ApiError`
carrying only the status code — the response body is not surfaced — and
returns no cluster assignments. -/
theorem c8_api_error_status_only (serp : List UnifiedRecord) (resp : HttpResponse)
    (h : resp.status ≠ 200) :
    get_clusters_from_api serp resp = .error { status := resp.status, body := none } := by
  unfold get_clusters_from_api
  rw [if_neg (by simpa using h)]

/-- Witness for `c8_api_error_status_only` at a concrete response. -/
theorem c8_api_error_status_only_witness :
    get_clusters_from_api [] { status := 503, text := "overloaded" } =
      .error { status := 503, body := none } :=
  c8_api_error_status_only [] { status := 503, text := "overloaded" } (by decide)

theorem pollBatchStatus_timeout (status : Nat → BatchStatus) (fuel i : Nat)
    (h : ∀ j, j < i + fuel → status j ≠ .completed ∧ status j ≠ .failed) :
    pollBatchStatus status i fuel = .error .batchTimeout := by
  induction fuel generalizing i with
  | zero => rfl
  | succ n ih =>
      have hi := h i (by omega)
      unfold pollBatchStatus
      cases hs : status i with
      | completed => exact absurd hs hi.1
      | failed => exact absurd hs hi.2
      | created => exact ih (i + 1) fun j hj => h j (by omega)
      | queued => exact ih (i + 1) fun j hj => h j (by omega)
      | running => exact ih (i + 1) fun j hj => h j (by omega)

/-- C7 (spec-modelled poll loop): if the batch status observed by the
polls never reaches `completed` or `failed` within the configured budget,
the orchestration tail terminates with the fatal `batchTimeout` error —
the loop is bounded by construction, never an infinite wait — and the
clustering service is called zero times in that run. -/
theorem c7_timeout_no_clustering (status : Nat → BatchStatus) (budget : Nat)
    (K : List KeywordRecord) (result_set : List FetchResponse) (clusterResp : HttpResponse)
    (h : ∀ i, i < budget → status i ≠ .completed ∧ status i ≠ .failed) :
    orchestrateAfterStart status budget K result_set clusterResp =
      (.error .batchTimeout, 0) := by
  unfold orchestrateAfterStart
  rw [pollBatchStatus_timeout status budget 0 (by simpa using h)]

/-- Witness for `c7_timeout_no_clustering`: a batch that stays `running`
for all three polls of a budget of three. -/
theorem c7_timeout_no_clustering_witness :
    orchestrateAfterStart (fun _ => .running) 3 [] [] { status := 200, text := "clusters" } =
      (.error .batchTimeout, 0) :=
  c7_timeout_no_clustering (fun _ => .running) 3 [] [] { status := 200, text := "clusters" }
    (fun _ _ => ⟨(fun hc => nomatch hc), (fun hc => nomatch hc)⟩)
